import Mathlib

/-!
Verification of the clinix.ai symptom-to-risk decision pipeline.

The embedding models the deterministic core of the repository:
* `src/llm_interface/llm_parser.py` — the rule-based symptom parser
  (`_detect_injuries`, `_calculate_severity_spectrum`, `_mock_parse`,
  `parse_symptom_text`).  The external LLM provider paths fall back to the
  rule-based `_mock_parse` under the default configuration (no API keys) and
  on any error, so the deterministic path is what is modelled.
* `src/inference/triage_engine.py` — the five-layer spectrum risk scorer and
  the threshold triage classifier.
* `src/models/risk_scoring.py` — the fallback scorer `compute_risk_score`;
  the trained model file on disk is modelled as an `Option ℚ` parameter
  (`none` = no model file, `some m` = a model predicting probability `m`),
  and raising `FileNotFoundError` is modelled as `Except.error`.

Python strings are modelled as `List Char`; `str.lower()` as a character-wise
`Char.toLower` map, `str.strip()` as dropping whitespace characters from both
ends, and Python's substring test `needle in hay` as `hasSub`.  Python floats
are modelled as exact rationals (`ℚ`), except the severity-spectrum curve of
layer 3, whose fractional power `(severity/10) ** 1.8` is modelled with the
real power function, so risk scores live in `ℝ`.
-/

namespace Clinix

/-- Python strings, modelled as lists of characters. -/
abbrev Str := List Char

/-- Build a `Str` from a Lean string literal. -/
def str (s : String) : Str := s.data

/-- The apostrophe character (written via its code point). -/
def apos : Char := Char.ofNat 39

/-- Whitespace test used by the model of Python's `str.strip()`. -/
def wsB (c : Char) : Bool := c.isWhitespace

/-- Model of Python's `str.lower()` (character-wise, ASCII letters). -/
def pyLower (s : Str) : Str := s.map Char.toLower

/-- Strip leading whitespace (half of Python's `str.strip()`). -/
def pyStripLeft (s : Str) : Str := s.dropWhile wsB

/-- Strip trailing whitespace (half of Python's `str.strip()`). -/
def pyStripRight (s : Str) : Str := (s.reverse.dropWhile wsB).reverse

/-- Model of Python's `str.strip()`. -/
def pyStrip (s : Str) : Str := pyStripRight (pyStripLeft s)

/-- The normalisation `raw_text.lower().strip()` that every scanning function
of the pipeline applies before keyword matching. -/
def normText (s : Str) : Str := pyStrip (pyLower s)

/-- `isPre n h` : `n` is an initial segment of `h`. -/
def isPre : Str → Str → Bool
  | [], _ => true
  | _ :: _, [] => false
  | a :: as, b :: bs => a == b && isPre as bs

/-- Model of Python's substring test `needle in hay`. -/
def hasSub (needle : Str) : Str → Bool
  | [] => needle.isEmpty
  | c :: rest => isPre needle (c :: rest) || hasSub needle rest

/-- Model of Python's `any(word in text for word in words)`. -/
def containsAny (t : Str) (words : List Str) : Bool :=
  words.any (fun w => hasSub w t)

/-- The Structured Symptom Record: the dictionary produced by the parser and
consumed by the scorer.  `raw_text` is `Option` because the Python dict may or
may not carry a `"raw_text"` key (`run_triage` reads it with
`parsed_symptoms.get("raw_text", "")`). -/
structure SymptomRecord where
  symptom_categories : List Str
  severity : ℚ
  duration_days : ℕ
  pattern : Str
  red_flags : List Str
  raw_text : Option Str
deriving DecidableEq

/-- `llm_parser._detect_injuries`: fracture keywords. -/
def fracture_keywords : List Str :=
  [str "broken", str "fracture", str "cracked", str "shattered", str "snapped"]

/-- `llm_parser._detect_injuries`: dislocation keywords. -/
def dislocation_keywords : List Str :=
  [str "dislocated", str "out of place", str "wrong way", str "facing wrong",
   str "misaligned", str "popped out"]

/-- `llm_parser._detect_injuries`: trauma keywords. -/
def trauma_keywords : List Str :=
  [str "hit", str "struck", str "fell", str "fall", str "accident",
   str "crash", str "collision"]

/-- `llm_parser._detect_injuries`: body-part vocabulary. -/
def body_parts : List Str :=
  [str "arm", str "leg", str "foot", str "ankle", str "wrist", str "hand",
   str "finger", str "toe", str "shoulder", str "elbow", str "knee",
   str "hip", str "rib", str "spine", str "neck", str "back"]

/-- The 4-phrase dislocation set used at `triage_engine.py:73`,
`llm_parser.py:181` and `llm_parser.py:245`. -/
def dislocation_phrases : List Str :=
  [str "wrong way", str "facing wrong", str "out of place", str "dislocated"]

/-- `"won't stop"` with a real apostrophe. -/
def wont_stop_ap : Str := str "won" ++ [apos] ++ str "t stop"

/-- `"i'm dying"` with a real apostrophe. -/
def im_dying_ap : Str := str "i" ++ [apos] ++ str "m dying"

/-- `"can't breathe"` with a real apostrophe. -/
def cant_breathe_ap : Str := str "can" ++ [apos] ++ str "t breathe"

/-- The stopping qualifier `"won't stop" ... or "wont stop" ... or
"not stopping"` tested at `llm_parser.py:160`, `171` and `224`. -/
def stop_qualifier (t : Str) : Bool :=
  hasSub wont_stop_ap t || hasSub (str "wont stop") t ||
    hasSub (str "not stopping") t

/-- `llm_parser._calculate_severity_spectrum`: death/dying phrases. -/
def dying_phrases : List Str :=
  [str "dying", str "death", str "dead", str "kill me", str "im dying",
   im_dying_ap]

/-- `llm_parser._calculate_severity_spectrum`: the ≥9 intensity words. -/
def severe_words : List Str :=
  [str "severe", str "extreme", str "intense", str "unbearable",
   str "critical", str "emergency"]

/-- `llm_parser._calculate_severity_spectrum`: the ≥8 intensity phrases. -/
def very_bad_words : List Str :=
  [str "very bad", str "really bad", str "terrible", str "awful"]

/-- `llm_parser._calculate_severity_spectrum`: the ≥6.5 words. -/
def bad_words : List Str := [str "bad", str "moderate"]

/-- `llm_parser._calculate_severity_spectrum`: the mild cue words. -/
def mild_words : List Str :=
  [str "mild", str "slight", str "minor", str "little"]

/-- `llm_parser._detect_injuries` (lines 113-142): returns the tagged injury
list and the injury-severity floor. -/
def detect_injuries (t : Str) : List Str × ℚ :=
  let step := fun (acc : List Str × ℚ) (part : Str) =>
    if hasSub part t then
      if containsAny t fracture_keywords then
        (acc.1 ++ [str "fracture_" ++ part], max acc.2 (mkRat 85 10))
      else if containsAny t dislocation_keywords then
        (acc.1 ++ [str "dislocation_" ++ part], max acc.2 8)
      else if containsAny t trauma_keywords then
        (acc.1 ++ [str "trauma_" ++ part], max acc.2 7)
      else acc
    else acc
  let r := body_parts.foldl step ([], 0)
  let s1 := if hasSub (str "broken") t then max r.2 (mkRat 85 10) else r.2
  let s2 := if containsAny t dislocation_keywords then max s1 8 else s1
  (r.1, s2)

/-- The phrase-based override chain of
`llm_parser._calculate_severity_spectrum` (lines 152-169). -/
def severity_overrides (t : Str) (severity : ℚ) : ℚ :=
  if containsAny t dying_phrases then 10
  else if containsAny t severe_words then max severity 9
  else if containsAny t very_bad_words then max severity 8
  else if hasSub (str "significant") t then
    (if hasSub (str "bleeding") t || hasSub (str "blood") t then
      (if stop_qualifier t then mkRat 68 10 else mkRat 65 10)
    else mkRat 65 10)
  else if containsAny t bad_words then max severity (mkRat 65 10)
  else if containsAny t mild_words then min severity 4
  else severity

/-- The persistent-bleeding floor of
`llm_parser._calculate_severity_spectrum` (lines 171-173). -/
def severity_bleeding_floor (t : Str) (severity : ℚ) : ℚ :=
  if (hasSub (str "bleeding") t || hasSub (str "blood") t) &&
      (stop_qualifier t || hasSub (str "continuing") t ||
        hasSub (str "persistent") t || hasSub (str "heavy") t) then
    (if !hasSub (str "significant") t && !hasSub (str "severe") t then
      max severity 7
    else severity)
  else severity

/-- `llm_parser._calculate_severity_spectrum` (lines 145-184). -/
def calculate_severity_spectrum (t : Str) (injuries : List Str)
    (injury_severity : ℚ) : ℚ :=
  let severity : ℚ := 5
  let severity := if 0 < injury_severity then max severity injury_severity
    else severity
  let severity := severity_overrides t severity
  let severity := severity_bleeding_floor t severity
  let severity := if 2 ≤ injuries.length then max severity (mkRat 85 10)
    else severity
  let severity := if hasSub (str "broken") t && (hasSub (str "arm") t ||
      hasSub (str "leg") t || hasSub (str "foot") t) then
      max severity (mkRat 85 10)
    else severity
  let severity := if containsAny t dislocation_phrases then max severity 8
    else severity
  min severity 10

/-- `llm_parser._mock_parse` (lines 187-257): the rule-based parser. -/
def mock_parse (raw_text : Str) : SymptomRecord :=
  let t := normText raw_text
  let di := detect_injuries t
  let injuries := di.1
  let injury_severity := di.2
  let symptom_categories : List Str :=
    (if containsAny t [str "chest", str "heart", str "cardiac"] then
      [str "chest_pain"] else []) ++
    (if containsAny t [str "breath", str "breathing", str "shortness",
        str "short of breath"] then [str "shortness_of_breath"] else []) ++
    (if containsAny t [str "fever", str "temperature", str "hot"] then
      [str "fever"] else []) ++
    (if containsAny t [str "head", str "headache"] then
      [str "headache"] else []) ++
    (if containsAny t [str "stomach", str "abdominal", str "belly",
        str "abdomen"] then [str "abdominal_pain"] else []) ++
    (if containsAny t [str "bleeding", str "blood", str "hemorrhage"] then
      [str "bleeding"] else []) ++
    (if !injuries.isEmpty then injuries ++ [str "trauma"] else [])
  let symptom_categories := if symptom_categories.isEmpty then
      [str "general_discomfort"]
    else symptom_categories
  let severity := calculate_severity_spectrum t injuries injury_severity
  let severity := if hasSub (str "significant") t &&
      (hasSub (str "bleeding") t || hasSub (str "blood") t) then
      (if stop_qualifier t then mkRat 68 10
      else if severity < mkRat 65 10 then mkRat 65 10
      else severity)
    else severity
  let red_flags : List Str :=
    (if containsAny t [str "severe chest", str "crushing", str "pressure",
        str "heart pain"] then [str "severe_chest_pain"] else []) ++
    (if containsAny t [str "unconscious", str "passed out", str "fainted"]
      then [str "loss_of_consciousness"] else []) ++
    (if containsAny t [cant_breathe_ap, str "struggling to breathe",
        str "shortness of breath"] then [str "difficulty_breathing"]
      else []) ++
    (if containsAny t [str "bleeding", str "blood", str "hemorrhage"] then
      [str "active_bleeding"] else []) ++
    (if !injuries.isEmpty then
      [str "traumatic_injury"] ++
        (if 2 ≤ injuries.length then [str "multiple_injuries"] else [])
      else []) ++
    (if hasSub (str "broken") t then [str "fracture"] else []) ++
    (if containsAny t dislocation_phrases then [str "dislocation"] else [])
  let red_flags := red_flags ++
    (if 9 ≤ severity then [str "critical_severity"] else [])
  { symptom_categories := symptom_categories
    severity := severity
    duration_days := if !injuries.isEmpty then 1 else 3
    pattern := if !injuries.isEmpty then str "acute"
      else (if hasSub (str "worse") t then str "progressive"
        else str "constant")
    red_flags := red_flags
    raw_text := none }

/-- The fixed default record returned for empty/blank input
(`llm_parser.parse_symptom_text`, lines 23-30). -/
def default_record : SymptomRecord :=
  { symptom_categories := [str "general_discomfort"]
    severity := 5
    duration_days := 3
    pattern := str "constant"
    red_flags := []
    raw_text := none }

/-- `llm_parser.parse_symptom_text` (lines 13-49).  Under the default
configuration (no API keys) and on any provider error the Python code falls
back to `_mock_parse`; the deterministic path is modelled. -/
def parse_symptom_text (raw_text : Str) : SymptomRecord :=
  if raw_text.isEmpty || (pyStrip raw_text).isEmpty then default_record
  else
    let result := mock_parse raw_text
    if result.severity = 0 then { result with severity := 5 } else result

/-- `config.RISK_THRESHOLD_URGENT`. -/
def RISK_THRESHOLD_URGENT : ℚ := mkRat 8 10

/-- `config.RISK_THRESHOLD_CONSULT`. -/
def RISK_THRESHOLD_CONSULT : ℚ := mkRat 4 10

/-- `triage_engine.classify_triage` (lines 10-25). -/
noncomputable def classify_triage (risk_score : ℝ) : Str :=
  if (RISK_THRESHOLD_URGENT : ℝ) ≤ risk_score then str "urgent"
  else if (RISK_THRESHOLD_CONSULT : ℝ) ≤ risk_score then str "consult"
  else str "self_care"

/-- The pain words of `triage_engine._layer1_critical_life_threatening`. -/
def pain_words : List Str :=
  [str "hurt", str "pain", str "hurting", str "hurts", str "aching"]

/-- `triage_engine._layer1_critical_life_threatening` (lines 28-51). -/
def layer1_critical_life_threatening (raw_text : Str) : ℚ :=
  if raw_text.isEmpty then 0
  else
    let t := normText raw_text
    let risk : ℚ := 0
    let risk := if hasSub (str "dying") t || hasSub (str "death") t then
        max risk (mkRat 95 100)
      else risk
    let risk := if hasSub (str "heart") t && containsAny t pain_words then
        max risk (mkRat 90 100)
      else risk
    let risk := if hasSub (str "chest") t && hasSub (str "pain") t &&
        (hasSub (str "breath") t || hasSub (str "short") t) then
        max risk (mkRat 90 100)
      else risk
    let risk := if (hasSub (str "bleeding") t || hasSub (str "blood") t) &&
        (hasSub (str "heart") t || hasSub (str "chest") t) then
        max risk (mkRat 95 100)
      else risk
    risk

/-- `triage_engine._layer2_severe_injuries` (lines 54-87). -/
def layer2_severe_injuries (raw_text : Str) (parsed_symptoms : SymptomRecord) :
    ℚ :=
  if raw_text.isEmpty then 0
  else
    let t := normText raw_text
    let injuries := parsed_symptoms.symptom_categories.filter
      (fun cat => hasSub (str "fracture") cat ||
        hasSub (str "dislocation") cat || hasSub (str "trauma") cat)
    let risk : ℚ := 0
    let risk := if hasSub (str "broken") t then
        (if hasSub (str "arm") t || hasSub (str "leg") t ||
            hasSub (str "foot") t || hasSub (str "ankle") t then
          max risk (mkRat 82 100)
        else max risk (mkRat 72 100))
      else risk
    let risk := if containsAny t dislocation_phrases then
        max risk (mkRat 78 100)
      else risk
    let risk := if 2 ≤ injuries.length then max risk (mkRat 88 100)
      else if injuries.length = 1 then max risk (mkRat 73 100)
      else risk
    let risk := if parsed_symptoms.red_flags.contains (str "traumatic_injury")
      then max risk (mkRat 75 100) else risk
    let risk := if parsed_symptoms.red_flags.contains (str "multiple_injuries")
      then max risk (mkRat 87 100) else risk
    risk

/-- `triage_engine._layer3_severity_spectrum` (lines 90-106).  The Python
float power `normalized ** 1.8` is modelled by the real power function. -/
noncomputable def layer3_severity_spectrum (parsed_symptoms : SymptomRecord) :
    ℝ :=
  let severity := parsed_symptoms.severity
  if 10 ≤ severity then 0.95
  else if severity ≤ 0 then 0.08
  else
    let normalized : ℝ := (severity : ℝ) / 10.0
    let base_risk : ℝ := 0.08 + normalized ^ (1.8 : ℝ) * 0.87
    min base_risk 0.95

/-- The critical red-flag list of `triage_engine._layer4_red_flags`. -/
def critical_flags : List Str :=
  [str "severe_chest_pain", str "difficulty_breathing",
   str "loss_of_consciousness", str "critical_severity",
   str "active_bleeding"]

/-- The severe red-flag list of `triage_engine._layer4_red_flags`. -/
def severe_flags : List Str :=
  [str "fracture", str "dislocation", str "traumatic_injury",
   str "multiple_injuries"]

/-- `triage_engine._layer4_red_flags` (lines 109-137). -/
def layer4_red_flags (parsed_symptoms : SymptomRecord) : ℚ :=
  let red_flags := parsed_symptoms.red_flags
  if red_flags.isEmpty then 0
  else
    let risk : ℚ := 0
    let risk := if red_flags.any (fun flag => critical_flags.contains flag)
      then max risk (mkRat 85 100) else risk
    let risk := if red_flags.any (fun flag => severe_flags.contains flag)
      then max risk (mkRat 68 100) else risk
    let risk := if 3 ≤ red_flags.length then max risk (mkRat 90 100)
      else if 2 ≤ red_flags.length then max risk (mkRat 75 100)
      else if 1 ≤ red_flags.length then max risk (mkRat 55 100)
      else risk
    risk

/-- `triage_engine._layer5_symptom_combinations` (lines 140-164). -/
def layer5_symptom_combinations (parsed_symptoms : SymptomRecord) : ℚ :=
  let symptom_categories := parsed_symptoms.symptom_categories
  if symptom_categories.contains (str "chest_pain") &&
      symptom_categories.contains (str "shortness_of_breath") then
    mkRat 90 100
  else if symptom_categories.contains (str "trauma") &&
      4 ≤ symptom_categories.length then mkRat 85 100
  else if symptom_categories.contains (str "trauma") &&
      3 ≤ symptom_categories.length then mkRat 75 100
  else if 5 ≤ symptom_categories.length then mkRat 65 100
  else if 4 ≤ symptom_categories.length then mkRat 55 100
  else if 3 ≤ symptom_categories.length then mkRat 42 100
  else if 2 ≤ symptom_categories.length then mkRat 30 100
  else mkRat 18 100

/-- The combination cascade of `triage_engine._compute_spectrum_risk_score`
(lines 189-229), abstracted over the five layer values.  Layers 1, 2, 4, 5
are exact rationals; layer 3 is real because of its fractional power. -/
noncomputable def combine_layers (l1 l2 : ℚ) (l3 : ℝ) (l4 l5 : ℚ) : ℝ :=
  if mkRat 90 100 ≤ l1 then (l1 : ℝ)
  else if mkRat 80 100 ≤ l2 then
    let base : ℝ := (l2 : ℝ)
    let base := if (0.5 : ℝ) < l3 then max base (l3 * 0.9) else base
    let base := if mkRat 5 10 < l4 then max base ((l4 : ℝ) * 0.85) else base
    min base 0.95
  else if (0.70 : ℝ) ≤ l3 then
    let base : ℝ := l3
    let base := if mkRat 4 10 < l4 then base * 0.65 + (l4 : ℝ) * 0.35
      else base
    let base := if mkRat 3 10 < l5 then max base ((l5 : ℝ) * 0.75) else base
    min base 0.92
  else
    let weighted_sum : ℝ := (l1 : ℝ) * 0.30 + (l2 : ℝ) * 0.28 + l3 * 0.22 +
      (l4 : ℝ) * 0.12 + (l5 : ℝ) * 0.08
    let max_layer : ℝ :=
      max (max (max (max (l1 : ℝ) (l2 : ℝ)) l3) (l4 : ℝ)) (l5 : ℝ)
    let non_zero_count : ℕ :=
      (if mkRat 5 100 < l1 then 1 else 0) +
      (if mkRat 5 100 < l2 then 1 else 0) +
      (if (0.05 : ℝ) < l3 then 1 else 0) +
      (if mkRat 5 100 < l4 then 1 else 0) +
      (if mkRat 5 100 < l5 then 1 else 0)
    let combined : ℝ :=
      if (0.60 : ℝ) ≤ max_layer then
        (if 3 ≤ non_zero_count then weighted_sum * 0.55 + max_layer * 0.45
        else weighted_sum * 0.6 + max_layer * 0.4)
      else if (0.40 : ℝ) ≤ max_layer then
        (if 2 ≤ non_zero_count then weighted_sum * 0.65 + max_layer * 0.35
        else weighted_sum * 0.7 + max_layer * 0.3)
      else weighted_sum
    min combined 0.95

/-- `triage_engine._compute_spectrum_risk_score` (lines 167-229). -/
noncomputable def compute_spectrum_risk_score (raw_text : Str)
    (parsed_symptoms : SymptomRecord) : ℝ :=
  combine_layers
    (layer1_critical_life_threatening raw_text)
    (layer2_severe_injuries raw_text parsed_symptoms)
    (layer3_severity_spectrum parsed_symptoms)
    (layer4_red_flags parsed_symptoms)
    (layer5_symptom_combinations parsed_symptoms)

/-- The effective raw text used by `triage_engine.run_triage` (lines 250-251):
a missing or empty `raw_text` argument falls back to
`parsed_symptoms.get("raw_text", "")`. -/
def effective_raw_text (parsed_symptoms : SymptomRecord)
    (raw_text : Option Str) : Str :=
  match raw_text with
  | none => parsed_symptoms.raw_text.getD []
  | some t => if t.isEmpty then parsed_symptoms.raw_text.getD [] else t

/-- The risk score computed by `triage_engine.run_triage` (lines 232-259).
The explanation string (an LLM call with a deterministic template fallback)
is not needed by any claim and is not modelled. -/
noncomputable def run_triage_risk_score (parsed_symptoms : SymptomRecord)
    (raw_text : Option Str) : ℝ :=
  compute_spectrum_risk_score (effective_raw_text parsed_symptoms raw_text)
    parsed_symptoms

/-- `triage_engine.run_triage`: the (risk score, triage label) pair. -/
noncomputable def run_triage (parsed_symptoms : SymptomRecord)
    (raw_text : Option Str) : ℝ × Str :=
  (run_triage_risk_score parsed_symptoms raw_text,
   classify_triage (run_triage_risk_score parsed_symptoms raw_text))

/-- The pain words of `risk_scoring.compute_risk_score` (includes "ache"). -/
def rs_pain_words : List Str :=
  [str "hurt", str "pain", str "hurting", str "hurts", str "aching",
   str "ache"]

/-- The critical red-flag list of `risk_scoring.compute_risk_score`
(line 74; note: no "active_bleeding" here, unlike layer 4). -/
def rs_critical_flags : List Str :=
  [str "severe_chest_pain", str "difficulty_breathing",
   str "loss_of_consciousness", str "critical_severity"]

/-- `risk_scoring.compute_risk_score` (lines 29-88).  The trained model file
is modelled as `Option ℚ`: `none` means `MODEL_PATH` does not exist, in which
case `load_model` raises `FileNotFoundError` (modelled as `Except.error ()`);
`some m` means a model whose predicted class-1 probability is `m`. -/
def compute_risk_score (parsed_symptoms : SymptomRecord) (model : Option ℚ) :
    Except Unit ℚ :=
  let raw_text := parsed_symptoms.raw_text.getD []
  let t := normText raw_text
  if !t.isEmpty && (hasSub (str "dying") t || hasSub (str "im dying") t) then
    .ok (mkRat 95 100)
  else if !t.isEmpty && (hasSub (str "heart") t && containsAny t rs_pain_words)
    then .ok (mkRat 95 100)
  else if !t.isEmpty && ((hasSub (str "bleeding") t || hasSub (str "blood") t)
      && (hasSub (str "heart") t || hasSub (str "chest") t ||
        hasSub (str "pain") t)) then .ok (mkRat 95 100)
  else if !t.isEmpty && (hasSub (str "chest") t && hasSub (str "pain") t &&
      (hasSub (str "breath") t || hasSub (str "short") t)) then .ok (mkRat 95 100)
  else if 9 ≤ parsed_symptoms.severity then .ok (mkRat 95 100)
  else if 2 ≤ parsed_symptoms.red_flags.length then .ok (mkRat 95 100)
  else if parsed_symptoms.symptom_categories.contains (str "chest_pain") &&
      parsed_symptoms.symptom_categories.contains (str "shortness_of_breath")
    then .ok (mkRat 95 100)
  else if parsed_symptoms.red_flags.any
      (fun flag => rs_critical_flags.contains flag) then .ok (mkRat 95 100)
  else
    match model with
    | none => .error ()
    | some m => .ok m

/-- The disjunction of the rule short-circuits of
`risk_scoring.compute_risk_score`: exactly the conditions under which the
cascade resolves to 0.95 before touching the trained model. -/
def rs_short_circuit (parsed_symptoms : SymptomRecord) : Bool :=
  let raw_text := parsed_symptoms.raw_text.getD []
  let t := normText raw_text
  (!t.isEmpty && (hasSub (str "dying") t || hasSub (str "im dying") t)) ||
  (!t.isEmpty && (hasSub (str "heart") t && containsAny t rs_pain_words)) ||
  (!t.isEmpty && ((hasSub (str "bleeding") t || hasSub (str "blood") t)
      && (hasSub (str "heart") t || hasSub (str "chest") t ||
        hasSub (str "pain") t))) ||
  (!t.isEmpty && (hasSub (str "chest") t && hasSub (str "pain") t &&
      (hasSub (str "breath") t || hasSub (str "short") t))) ||
  decide ((9 : ℚ) ≤ parsed_symptoms.severity) ||
  decide (2 ≤ parsed_symptoms.red_flags.length) ||
  (parsed_symptoms.symptom_categories.contains (str "chest_pain") &&
      parsed_symptoms.symptom_categories.contains (str "shortness_of_breath"))
    ||
  parsed_symptoms.red_flags.any (fun flag => rs_critical_flags.contains flag)

/-- A record with one more red flag, all other fields held fixed
(the operation quantified over in the red-flag monotonicity claim). -/
def add_red_flag (parsed_symptoms : SymptomRecord) (flag : Str) :
    SymptomRecord :=
  { parsed_symptoms with red_flags := flag :: parsed_symptoms.red_flags }

theorem isPre_iff (n h : Str) : isPre n h = true ↔ ∃ t, h = n ++ t := by
  induction n generalizing h with
  | nil => simp [isPre]
  | cons a as ih =>
    cases h with
    | nil => simp [isPre]
    | cons b bs =>
      simp only [isPre, Bool.and_eq_true, beq_iff_eq, ih, List.cons_append,
        List.cons.injEq]
      constructor
      · rintro ⟨rfl, t, rfl⟩
        exact ⟨t, rfl, rfl⟩
      · rintro ⟨t, rfl, rfl⟩
        exact ⟨rfl, t, rfl⟩

theorem hasSub_iff (n h : Str) : hasSub n h = true ↔ ∃ a b, h = a ++ n ++ b := by
  induction h with
  | nil =>
    simp only [hasSub, List.isEmpty_iff]
    constructor
    · rintro rfl
      exact ⟨[], [], rfl⟩
    · rintro ⟨a, b, hab⟩
      rcases List.append_eq_nil.mp hab.symm with ⟨h1, h2⟩
      exact (List.append_eq_nil.mp h1).2
  | cons c rest ih =>
    simp only [hasSub, Bool.or_eq_true, isPre_iff, ih]
    constructor
    · rintro (⟨t, ht⟩ | ⟨a, b, rfl⟩)
      · exact ⟨[], t, by simpa using ht⟩
      · exact ⟨c :: a, b, rfl⟩
    · rintro ⟨a, b, hab⟩
      cases a with
      | nil => exact Or.inl ⟨b, by simpa using hab⟩
      | cons x a' =>
        right
        refine ⟨a', b, ?_⟩
        have := hab
        simp only [List.cons_append] at this
        exact (List.cons.injEq .. ▸ this).2

theorem hasSub_parts (n a b : Str) : hasSub n (a ++ n ++ b) = true :=
  (hasSub_iff n _).mpr ⟨a, b, rfl⟩

theorem hasSub_ne_nil {n h : Str} (hn : n ≠ []) (hs : hasSub n h = true) :
    h ≠ [] := by
  rintro rfl
  cases n with
  | nil => exact hn rfl
  | cons c m => simp [hasSub, List.isEmpty] at hs

theorem hasSub_map {n h : Str} (f : Char → Char) (hfix : n.map f = n)
    (hs : hasSub n h = true) : hasSub n (h.map f) = true := by
  obtain ⟨a, b, rfl⟩ := (hasSub_iff n h).mp hs
  refine (hasSub_iff n _).mpr ⟨a.map f, b.map f, ?_⟩
  simp [hfix]

theorem hasSub_reverse {n h : Str} (hs : hasSub n h = true) :
    hasSub n.reverse h.reverse = true := by
  obtain ⟨a, b, rfl⟩ := (hasSub_iff n h).mp hs
  refine (hasSub_iff n.reverse _).mpr ⟨b.reverse, a.reverse, ?_⟩
  simp

theorem hasSub_dropWhile {p : Char → Bool} {n h : Str} (hn : n ≠ [])
    (hws : ∀ c ∈ n, p c = false) (hs : hasSub n h = true) :
    hasSub n (h.dropWhile p) = true := by
  obtain ⟨a, b, rfl⟩ := (hasSub_iff n h).mp hs
  induction a with
  | nil =>
    cases n with
    | nil => exact absurd rfl hn
    | cons c m =>
      have hc : p c = false := hws c (by simp)
      have : (([] : Str) ++ (c :: m) ++ b).dropWhile p = (c :: m) ++ b := by
        simp [List.dropWhile_cons, hc]
      rw [this]
      exact hasSub_parts (c :: m) [] b
  | cons x a' ih =>
    have hrw : ((x :: a') ++ n ++ b) = x :: (a' ++ n ++ b) := by simp
    rw [hrw, List.dropWhile_cons]
    by_cases hx : p x = true
    · simp only [hx, if_true]
      exact ih (hasSub_parts n a' b)
    · simp only [hx, if_false]
      exact hasSub_parts n (x :: a') b

theorem hasSub_pyStrip {n h : Str} (hn : n ≠ [])
    (hws : ∀ c ∈ n, wsB c = false) (hs : hasSub n h = true) :
    hasSub n (pyStrip h) = true := by
  have h1 : hasSub n (pyStripLeft h) = true := hasSub_dropWhile hn hws hs
  have h2 := hasSub_reverse h1
  have hn' : n.reverse ≠ [] := by simpa using hn
  have hws' : ∀ c ∈ n.reverse, wsB c = false := by
    intro c hc
    exact hws c (List.mem_reverse.mp hc)
  have h4 := hasSub_dropWhile hn' hws' h2
  have h5 := hasSub_reverse h4
  simpa [pyStrip, pyStripRight] using h5

theorem hasSub_normText {n h : Str} (hn : n ≠ [])
    (hlow : n.map Char.toLower = n) (hws : ∀ c ∈ n, wsB c = false)
    (hs : hasSub n h = true) : hasSub n (normText h) = true :=
  hasSub_pyStrip hn hws (hasSub_map Char.toLower hlow hs)

theorem le_ite {α : Type*} [LE α] {c : Prop} [Decidable c] {x a b : α}
    (ha : x ≤ a) (hb : x ≤ b) : x ≤ if c then a else b := by
  split_ifs <;> assumption

theorem ite_le {α : Type*} [LE α] {c : Prop} [Decidable c] {x a b : α}
    (ha : a ≤ x) (hb : b ≤ x) : (if c then a else b) ≤ x := by
  split_ifs <;> assumption

theorem layer3_eq_high {ps : SymptomRecord}
    (h : (10 : ℚ) ≤ ps.severity) : layer3_severity_spectrum ps = 0.95 := by
  unfold layer3_severity_spectrum
  dsimp only
  rw [if_pos h]

theorem layer3_eq_low {ps : SymptomRecord}
    (h1 : ¬ (10 : ℚ) ≤ ps.severity) (h2 : ps.severity ≤ 0) :
    layer3_severity_spectrum ps = 0.08 := by
  unfold layer3_severity_spectrum
  dsimp only
  rw [if_neg h1, if_pos h2]

theorem layer3_eq_mid {ps : SymptomRecord}
    (h1 : ¬ (10 : ℚ) ≤ ps.severity) (h2 : ¬ ps.severity ≤ 0) :
    layer3_severity_spectrum ps =
      min (0.08 + ((ps.severity : ℝ) / 10.0) ^ (1.8 : ℝ) * 0.87) 0.95 := by
  unfold layer3_severity_spectrum
  dsimp only
  rw [if_neg h1, if_neg h2]

theorem layer3_mid_pow_nonneg {ps : SymptomRecord}
    (h2 : ¬ ps.severity ≤ 0) :
    (0 : ℝ) ≤ ((ps.severity : ℝ) / 10.0) ^ (1.8 : ℝ) := by
  have h0 : (0 : ℚ) ≤ ps.severity := by
    norm_num at h2
    linarith
  have h0' : (0 : ℝ) ≤ (ps.severity : ℝ) := by exact_mod_cast h0
  exact Real.rpow_nonneg (by positivity) _

theorem layer3_bounds (ps : SymptomRecord) :
    (0.08 : ℝ) ≤ layer3_severity_spectrum ps ∧
      layer3_severity_spectrum ps ≤ 0.95 := by
  by_cases h1 : (10 : ℚ) ≤ ps.severity
  · rw [layer3_eq_high h1]
    norm_num
  · by_cases h2 : ps.severity ≤ 0
    · rw [layer3_eq_low h1 h2]
      norm_num
    · rw [layer3_eq_mid h1 h2]
      have hpow := layer3_mid_pow_nonneg h2
      exact ⟨le_min (by nlinarith) (by norm_num), min_le_right _ _⟩

/-- C5: the triage classifier is total on risk scores: every score ≥ 0.8 maps
to "urgent", every score in [0.4, 0.8) maps to "consult", every score < 0.4
maps to "self_care"; the boundary scores 0.8 and 0.4 classify as "urgent"
and "consult" respectively, and the configured thresholds equal 0.8/0.4. -/
theorem classify_triage_total :
    RISK_THRESHOLD_URGENT = 0.8 ∧ RISK_THRESHOLD_CONSULT = 0.4 ∧
    (∀ r : ℝ, (0.8 : ℝ) ≤ r → classify_triage r = str "urgent") ∧
    (∀ r : ℝ, (0.4 : ℝ) ≤ r → r < 0.8 → classify_triage r = str "consult") ∧
    (∀ r : ℝ, r < 0.4 → classify_triage r = str "self_care") ∧
    classify_triage 0.8 = str "urgent" ∧
    classify_triage 0.4 = str "consult" := by
  have hu : ((RISK_THRESHOLD_URGENT : ℚ) : ℝ) = 0.8 := by
    norm_num [RISK_THRESHOLD_URGENT]
  have hc : ((RISK_THRESHOLD_CONSULT : ℚ) : ℝ) = 0.4 := by
    norm_num [RISK_THRESHOLD_CONSULT]
  refine ⟨by norm_num [RISK_THRESHOLD_URGENT], by
    norm_num [RISK_THRESHOLD_CONSULT], ?_, ?_, ?_, ?_, ?_⟩
  · intro r h
    unfold classify_triage
    rw [hu, if_pos h]
  · intro r h1 h2
    unfold classify_triage
    rw [hu, hc, if_neg (not_le.mpr h2), if_pos h1]
  · intro r h
    unfold classify_triage
    rw [hu, hc, if_neg (not_le.mpr (by linarith)),
      if_neg (not_le.mpr (by linarith))]
  · unfold classify_triage
    rw [hu, if_pos le_rfl]
  · unfold classify_triage
    rw [hu, hc, if_neg (by norm_num), if_pos le_rfl]

theorem classify_triage_total_witness :
    (0.8 : ℝ) ≤ 0.9 ∧ classify_triage 0.9 = str "urgent" ∧
    classify_triage 0.5 = str "consult" ∧
    classify_triage 0.2 = str "self_care" :=
  ⟨by norm_num, classify_triage_total.2.2.1 0.9 (by norm_num),
   classify_triage_total.2.2.2.1 0.5 (by norm_num) (by norm_num),
   classify_triage_total.2.2.2.2.1 0.2 (by norm_num)⟩

/-- C6: the symptom parser is a total function (it never raises: the
embedding is total by construction, and every Python path returns a record),
and on empty or whitespace-only input it returns exactly the fixed default
record: categories `["general_discomfort"]`, severity 5.0, duration 3,
pattern "constant", no red flags. -/
theorem parse_blank_default :
    ∀ raw : Str, raw.all wsB = true →
      parse_symptom_text raw =
        { symptom_categories := [str "general_discomfort"]
          severity := 5
          duration_days := 3
          pattern := str "constant"
          red_flags := []
          raw_text := none } := by
  intro raw h
  have hall : ∀ c ∈ raw, wsB c = true := List.all_eq_true.mp h
  have hleft : pyStripLeft raw = [] := by
    simp only [pyStripLeft]
    exact List.dropWhile_eq_nil_iff.mpr hall
  have hstrip : pyStrip raw = [] := by
    simp [pyStrip, hleft, pyStripRight]
  unfold parse_symptom_text
  rw [if_pos (by simp [hstrip])]
  rfl

theorem parse_blank_default_witness :
    (str "   ").all wsB = true ∧
      parse_symptom_text (str "   ") =
        { symptom_categories := [str "general_discomfort"]
          severity := 5
          duration_days := 3
          pattern := str "constant"
          red_flags := []
          raw_text := none } :=
  ⟨by decide, parse_blank_default (str "   ") (by decide)⟩

/-- C7: the severity-spectrum layer (L3) equals 0.95 for severity ≥ 10,
equals 0.08 for severity ≤ 0, and otherwise equals
`min (0.08 + (severity/10)^1.8 * 0.87) 0.95`; for severity in [0, 10] its
value lies in [0.08, 0.95], and it is monotonically non-decreasing in
severity. -/
theorem layer3_spectrum_curve :
    (∀ ps : SymptomRecord, 10 ≤ ps.severity →
      layer3_severity_spectrum ps = 0.95) ∧
    (∀ ps : SymptomRecord, ps.severity ≤ 0 →
      layer3_severity_spectrum ps = 0.08) ∧
    (∀ ps : SymptomRecord, 0 < ps.severity → ps.severity < 10 →
      layer3_severity_spectrum ps =
        min (0.08 + ((ps.severity : ℝ) / 10) ^ (1.8 : ℝ) * 0.87) 0.95) ∧
    (∀ ps : SymptomRecord, 0 ≤ ps.severity → ps.severity ≤ 10 →
      (0.08 : ℝ) ≤ layer3_severity_spectrum ps ∧
        layer3_severity_spectrum ps ≤ 0.95) ∧
    (∀ ps ps' : SymptomRecord, ps.severity ≤ ps'.severity →
      layer3_severity_spectrum ps ≤ layer3_severity_spectrum ps') := by
  refine ⟨?_, ?_, ?_, ?_, ?_⟩
  · intro ps h
    exact layer3_eq_high (by linarith)
  · intro ps h
    rw [layer3_eq_low (by intro hc; linarith) (by linarith)]
  · intro ps h0 h10
    rw [layer3_eq_mid (by intro hc; linarith) (by intro hc; linarith)]
    norm_num
  · intro ps _ _
    exact layer3_bounds ps
  · intro ps ps' hle
    by_cases h1' : (10 : ℚ) ≤ ps'.severity
    · rw [layer3_eq_high h1']
      exact (layer3_bounds ps).2
    · by_cases h2' : ps'.severity ≤ 0
      · have hps2 : ps.severity ≤ 0 := le_trans hle h2'
        have hps1 : ¬ (10 : ℚ) ≤ ps.severity := by intro hc; linarith
        rw [layer3_eq_low h1' h2', layer3_eq_low hps1 hps2]
      · rw [layer3_eq_mid h1' h2']
        by_cases h2 : ps.severity ≤ 0
        · rw [layer3_eq_low (by intro hc; linarith) h2]
          have hpow := layer3_mid_pow_nonneg h2'
          exact le_min (by nlinarith) (by norm_num)
        · have hn1 : ¬ (10 : ℚ) ≤ ps.severity := by
            intro hc
            exact h1' (le_trans hc hle)
          rw [layer3_eq_mid hn1 h2]
          have hs : (0 : ℝ) ≤ (ps.severity : ℝ) / 10.0 := by
            have h0 : (0 : ℚ) ≤ ps.severity := by
              norm_num at h2
              linarith
            have : (0 : ℝ) ≤ (ps.severity : ℝ) := by exact_mod_cast h0
            positivity
          have hle' : ((ps.severity : ℚ) : ℝ) ≤ ((ps'.severity : ℚ) : ℝ) := by
            exact_mod_cast hle
          have hs' : (ps.severity : ℝ) / 10.0 ≤ (ps'.severity : ℝ) / 10.0 := by
            linarith
          have hpow : ((ps.severity : ℝ) / 10.0) ^ (1.8 : ℝ) ≤
              ((ps'.severity : ℝ) / 10.0) ^ (1.8 : ℝ) :=
            Real.rpow_le_rpow hs hs' (by norm_num)
          exact min_le_min (by nlinarith) le_rfl

theorem layer3_spectrum_curve_witness :
    layer3_severity_spectrum
      { symptom_categories := [], severity := 12, duration_days := 0,
        pattern := [], red_flags := [], raw_text := none } = 0.95 ∧
    layer3_severity_spectrum
      { symptom_categories := [], severity := -1, duration_days := 0,
        pattern := [], red_flags := [], raw_text := none } = 0.08 ∧
    (0.08 : ℝ) ≤ layer3_severity_spectrum
      { symptom_categories := [], severity := 5, duration_days := 0,
        pattern := [], red_flags := [], raw_text := none } ∧
    layer3_severity_spectrum
      { symptom_categories := [], severity := 3, duration_days := 0,
        pattern := [], red_flags := [], raw_text := none } ≤
      layer3_severity_spectrum
      { symptom_categories := [], severity := 7, duration_days := 0,
        pattern := [], red_flags := [], raw_text := none } :=
  ⟨layer3_spectrum_curve.1 _ (by norm_num),
   layer3_spectrum_curve.2.1 _ (by norm_num),
   (layer3_spectrum_curve.2.2.2.1 _ (by norm_num) (by norm_num)).1,
   layer3_spectrum_curve.2.2.2.2 _ _ (by norm_num)⟩

set_option maxHeartbeats 1000000 in
theorem severity_overrides_lb {t : Str} {s : ℚ} (hs : 5 ≤ s) :
    4 ≤ severity_overrides t s := by
  unfold severity_overrides
  split_ifs
  · norm_num
  · exact le_trans (by norm_num) (le_max_right _ _)
  · exact le_trans (by norm_num) (le_max_right _ _)
  · norm_num
  · norm_num
  · norm_num
  · exact le_trans (by norm_num) (le_max_right _ _)
  · exact le_min (by linarith) (by norm_num)
  · linarith

set_option maxHeartbeats 1000000 in
theorem severity_bleeding_floor_lb {t : Str} {s : ℚ} (hs : 4 ≤ s) :
    4 ≤ severity_bleeding_floor t s := by
  unfold severity_bleeding_floor
  split_ifs
  · exact le_trans hs (le_max_left _ _)
  · exact hs
  · exact hs

theorem calculate_severity_spectrum_bounds (t : Str) (inj : List Str)
    (isv : ℚ) :
    4 ≤ calculate_severity_spectrum t inj isv ∧
      calculate_severity_spectrum t inj isv ≤ 10 := by
  unfold calculate_severity_spectrum
  dsimp only
  constructor
  · refine le_min ?_ (by norm_num)
    have h5 : (5 : ℚ) ≤ (if 0 < isv then max 5 isv else (5 : ℚ)) := by
      split_ifs
      · exact le_trans (by norm_num) (le_max_left _ _)
      · norm_num
    have h1 := severity_overrides_lb (t := t) h5
    have h2 := severity_bleeding_floor_lb (t := t) h1
    refine le_ite (le_trans ?_ (le_max_left _ _)) ?_ <;>
      refine le_ite (le_trans ?_ (le_max_left _ _)) ?_ <;>
      refine le_ite (le_trans ?_ (le_max_left _ _)) ?_ <;>
      exact h2
  · exact le_trans (min_le_right _ _) (by norm_num)

theorem mock_parse_severity_bounds (raw : Str) :
    4 ≤ (mock_parse raw).severity ∧ (mock_parse raw).severity ≤ 10 := by
  have hc := calculate_severity_spectrum_bounds (normText raw)
    (detect_injuries (normText raw)).1 (detect_injuries (normText raw)).2
  unfold mock_parse
  dsimp only
  split_ifs with hA hB hC
  · constructor <;> norm_num
  · constructor <;> norm_num
  · exact hc
  · exact hc

/-- C10: for every input text, the severity produced by the rule-based parser
lies in the closed interval [4, 10]; severity strictly below 4 is unreachable
through the rule-based path. -/
theorem parse_symptom_text_severity_range :
    ∀ raw : Str, 4 ≤ (parse_symptom_text raw).severity ∧
      (parse_symptom_text raw).severity ≤ 10 := by
  intro raw
  unfold parse_symptom_text
  dsimp only
  split_ifs with h1 h2
  · constructor <;> norm_num [default_record]
  · constructor <;> norm_num
  · exact mock_parse_severity_bounds raw

/-- C8: when none of the fallback scorer's rule short-circuits applies and no
trained model file exists, `compute_risk_score` fails with an explicit error
(the `FileNotFoundError` of `load_model`, modelled as `Except.error`) rather
than returning a default score; under any short-circuit condition it returns
0.95 regardless of the model (without touching it). -/
theorem compute_risk_score_spec :
    (∀ (ps : SymptomRecord) (model : Option ℚ),
      rs_short_circuit ps = true → compute_risk_score ps model = .ok (mkRat 95 100)) ∧
    (∀ ps : SymptomRecord, rs_short_circuit ps = false →
      compute_risk_score ps none = .error ()) := by
  constructor
  · intro ps model h
    unfold compute_risk_score
    dsimp only
    split_ifs with h1 h2 h3 h4 h5 h6 h7 h8
    any_goals rfl
    exfalso
    unfold rs_short_circuit at h
    dsimp only at h
    simp only [Bool.or_eq_true, decide_eq_true_eq] at h
    rcases h with (((((((h | h) | h) | h) | h) | h) | h) | h)
    · exact h1 h
    · exact h2 h
    · exact h3 h
    · exact h4 h
    · exact h5 h
    · exact h6 h
    · exact h7 h
    · exact h8 h
  · intro ps h
    unfold rs_short_circuit at h
    dsimp only at h
    simp only [Bool.or_eq_false_iff, decide_eq_false_iff_not] at h
    obtain ⟨⟨⟨⟨⟨⟨⟨g1, g2⟩, g3⟩, g4⟩, g5⟩, g6⟩, g7⟩, g8⟩ := h
    unfold compute_risk_score
    dsimp only
    split_ifs with h1 h2 h3 h4 h5 h6
    · exact absurd h1 (by simp [g1])
    · exact absurd h2 (by simp [g2])
    · exact absurd h3 (by simp [g3])
    · exact absurd h4 (by simp [g4])
    · rw [h5] at g7
      exact Bool.noConfusion g7
    · rw [h6] at g8
      exact Bool.noConfusion g8
    · rfl

/-- A record triggering the severity short-circuit of the fallback scorer. -/
def rs_example_high : SymptomRecord :=
  { symptom_categories := [str "general_discomfort"]
    severity := mkRat 19 2
    duration_days := 3
    pattern := str "constant"
    red_flags := []
    raw_text := none }

/-- A record triggering no short-circuit of the fallback scorer. -/
def rs_example_plain : SymptomRecord :=
  { symptom_categories := [str "general_discomfort"]
    severity := 5
    duration_days := 3
    pattern := str "constant"
    red_flags := []
    raw_text := none }

theorem compute_risk_score_spec_witness :
    rs_short_circuit rs_example_high = true ∧
    compute_risk_score rs_example_high none = .ok (mkRat 95 100) ∧
    rs_short_circuit rs_example_plain = false ∧
    compute_risk_score rs_example_plain none = .error () :=
  ⟨by decide, compute_risk_score_spec.1 rs_example_high none (by decide),
   by decide, compute_risk_score_spec.2 rs_example_plain (by decide)⟩

theorem nonneg_ite_max {c : Prop} [Decidable c] {r v : ℚ} (hr : 0 ≤ r) :
    0 ≤ if c then max r v else r :=
  le_ite (le_trans hr (le_max_left _ _)) hr

theorem ite_max_le_of {c : Prop} [Decidable c] {r v b : ℚ} (hr : r ≤ b)
    (hv : v ≤ b) : (if c then max r v else r) ≤ b :=
  ite_le (max_le hr hv) hr

theorem nonneg_ite_max3 {c1 c2 : Prop} [Decidable c1] [Decidable c2]
    {r v w : ℚ} (hr : 0 ≤ r) :
    0 ≤ if c1 then max r v else if c2 then max r w else r :=
  le_ite (le_trans hr (le_max_left _ _)) (nonneg_ite_max hr)

theorem ite_max3_le {c1 c2 : Prop} [Decidable c1] [Decidable c2]
    {r v w b : ℚ} (hr : r ≤ b) (hv : v ≤ b) (hw : w ≤ b) :
    (if c1 then max r v else if c2 then max r w else r) ≤ b :=
  ite_le (max_le hr hv) (ite_max_le_of hr hw)

theorem nonneg_ite_max4 {c1 c2 c3 : Prop} [Decidable c1] [Decidable c2]
    [Decidable c3] {r v w u : ℚ} (hr : 0 ≤ r) :
    0 ≤ if c1 then max r v else if c2 then max r w
      else if c3 then max r u else r :=
  le_ite (le_trans hr (le_max_left _ _)) (nonneg_ite_max3 hr)

theorem ite_max4_le {c1 c2 c3 : Prop} [Decidable c1] [Decidable c2]
    [Decidable c3] {r v w u b : ℚ} (hr : r ≤ b) (hv : v ≤ b) (hw : w ≤ b)
    (hu : u ≤ b) :
    (if c1 then max r v else if c2 then max r w
      else if c3 then max r u else r) ≤ b :=
  ite_le (max_le hr hv) (ite_max3_le hr hw hu)

theorem layer1_bounds (raw : Str) :
    0 ≤ layer1_critical_life_threatening raw ∧
      layer1_critical_life_threatening raw ≤ mkRat 95 100 := by
  unfold layer1_critical_life_threatening
  dsimp only
  constructor
  · exact le_ite le_rfl
      (nonneg_ite_max (nonneg_ite_max (nonneg_ite_max (nonneg_ite_max
        le_rfl))))
  · exact ite_le (by norm_num)
      (ite_max_le_of (ite_max_le_of (ite_max_le_of (ite_max_le_of
        (by norm_num) (by norm_num)) (by norm_num)) (by norm_num))
        (by norm_num))

theorem layer2_bounds (raw : Str) (ps : SymptomRecord) :
    0 ≤ layer2_severe_injuries raw ps ∧
      layer2_severe_injuries raw ps ≤ mkRat 95 100 := by
  unfold layer2_severe_injuries
  dsimp only
  constructor
  · exact le_ite le_rfl
      (nonneg_ite_max (nonneg_ite_max (nonneg_ite_max3 (nonneg_ite_max
        (le_ite (le_ite (le_max_left _ _) (le_max_left _ _)) le_rfl)))))
  · exact ite_le (by norm_num)
      (ite_max_le_of (ite_max_le_of (ite_max3_le (ite_max_le_of
        (ite_le (ite_le (max_le (by norm_num) (by norm_num))
          (max_le (by norm_num) (by norm_num))) (by norm_num))
        (by norm_num)) (by norm_num) (by norm_num)) (by norm_num))
        (by norm_num))

theorem layer4_bounds (ps : SymptomRecord) :
    0 ≤ layer4_red_flags ps ∧ layer4_red_flags ps ≤ mkRat 95 100 := by
  unfold layer4_red_flags
  dsimp only
  constructor
  · exact le_ite le_rfl
      (nonneg_ite_max4 (nonneg_ite_max (nonneg_ite_max le_rfl)))
  · exact ite_le (by norm_num)
      (ite_max4_le (ite_max_le_of (ite_max_le_of (by norm_num) (by norm_num))
        (by norm_num)) (by norm_num) (by norm_num) (by norm_num))

theorem layer5_bounds (ps : SymptomRecord) :
    0 ≤ layer5_symptom_combinations ps ∧
      layer5_symptom_combinations ps ≤ mkRat 95 100 := by
  unfold layer5_symptom_combinations
  dsimp only
  split_ifs <;> constructor <;> norm_num

theorem cast_le_095 {l : ℚ} (h : l ≤ mkRat 95 100) : (l : ℝ) ≤ 0.95 := by
  have e : ((mkRat 95 100 : ℚ) : ℝ) = 0.95 := by norm_num
  calc (l : ℝ) ≤ ((mkRat 95 100 : ℚ) : ℝ) := by exact_mod_cast h
    _ = 0.95 := e

theorem combine_layers_bounds {l1 l2 l4 l5 : ℚ} {l3 : ℝ}
    (h1l : 0 ≤ l1) (h1u : l1 ≤ mkRat 95 100)
    (h2l : 0 ≤ l2) (_h2u : l2 ≤ mkRat 95 100)
    (h3l : (0.08 : ℝ) ≤ l3) (_h3u : l3 ≤ 0.95)
    (h4l : 0 ≤ l4) (_h4u : l4 ≤ mkRat 95 100)
    (h5l : 0 ≤ l5) (_h5u : l5 ≤ mkRat 95 100) :
    0 ≤ combine_layers l1 l2 l3 l4 l5 ∧
      combine_layers l1 l2 l3 l4 l5 ≤ 0.95 := by
  have c1l : (0 : ℝ) ≤ (l1 : ℝ) := by exact_mod_cast h1l
  have c2l : (0 : ℝ) ≤ (l2 : ℝ) := by exact_mod_cast h2l
  have c4l : (0 : ℝ) ≤ (l4 : ℝ) := by exact_mod_cast h4l
  have c5l : (0 : ℝ) ≤ (l5 : ℝ) := by exact_mod_cast h5l
  have c1u : (l1 : ℝ) ≤ 0.95 := cast_le_095 h1u
  constructor
  · unfold combine_layers
    dsimp only
    refine le_ite c1l (le_ite ?_ (le_ite ?_ ?_))
    · refine le_min ?_ (by norm_num)
      have hin : (0 : ℝ) ≤
          (if (0.5 : ℝ) < l3 then max (l2 : ℝ) (l3 * 0.9) else (l2 : ℝ)) :=
        le_ite (le_trans c2l (le_max_left _ _)) c2l
      exact le_ite (le_trans hin (le_max_left _ _)) hin
    · refine le_min ?_ (by norm_num)
      have hbase : (0 : ℝ) ≤
          (if mkRat 4 10 < l4 then l3 * 0.65 + (l4 : ℝ) * 0.35 else l3) :=
        le_ite (by nlinarith) (by linarith)
      exact le_ite (le_trans hbase (le_max_left _ _)) hbase
    · refine le_min ?_ (by norm_num)
      have hws : (0 : ℝ) ≤ (l1 : ℝ) * 0.30 + (l2 : ℝ) * 0.28 + l3 * 0.22 +
          (l4 : ℝ) * 0.12 + (l5 : ℝ) * 0.08 := by nlinarith
      have hmax : (0 : ℝ) ≤
          max (max (max (max (l1 : ℝ) (l2 : ℝ)) l3) (l4 : ℝ)) (l5 : ℝ) :=
        le_trans c5l (le_max_right _ _)
      refine le_ite (le_ite ?_ ?_) (le_ite (le_ite ?_ ?_) hws) <;> nlinarith
  · unfold combine_layers
    dsimp only
    refine ite_le c1u (ite_le (min_le_right _ _)
      (ite_le (le_trans (min_le_right _ _) (by norm_num)) (min_le_right _ _)))

/-- C9: for every raw text and every structured symptom record, the layered
scorer's result lies in [0, 0.95]: every branch of the combination cascade is
capped at 0.95 or below, a strictly tighter bound than the stated [0, 1]
range. -/
theorem risk_score_range :
    ∀ (raw : Str) (ps : SymptomRecord),
      0 ≤ compute_spectrum_risk_score raw ps ∧
        compute_spectrum_risk_score raw ps ≤ 0.95 := by
  intro raw ps
  unfold compute_spectrum_risk_score
  exact combine_layers_bounds (layer1_bounds raw).1 (layer1_bounds raw).2
    (layer2_bounds raw ps).1 (layer2_bounds raw ps).2
    (layer3_bounds ps).1 (layer3_bounds ps).2
    (layer4_bounds ps).1 (layer4_bounds ps).2
    (layer5_bounds ps).1 (layer5_bounds ps).2

theorem combine_layers_high_l1 {l1 l2 l4 l5 : ℚ} {l3 : ℝ}
    (h : mkRat 90 100 ≤ l1) : combine_layers l1 l2 l3 l4 l5 = (l1 : ℝ) := by
  unfold combine_layers
  dsimp only
  rw [if_pos h]

theorem layer1_of_dying {raw : Str} (h : hasSub (str "dying") raw = true) :
    layer1_critical_life_threatening raw = mkRat 95 100 := by
  have hne : raw ≠ [] := hasSub_ne_nil (by decide) h
  have hnorm : hasSub (str "dying") (normText raw) = true :=
    hasSub_normText (by decide) (by decide) (by decide) h
  have hcond : (hasSub (str "dying") (normText raw) ||
      hasSub (str "death") (normText raw)) = true := by
    simp [hnorm]
  unfold layer1_critical_life_threatening
  dsimp only
  rw [if_neg (by simpa [List.isEmpty_iff] using hne), if_pos hcond]
  split_ifs <;> decide

theorem classify_triage_eq_urgent {r : ℝ} (h : (0.8 : ℝ) ≤ r) :
    classify_triage r = str "urgent" := by
  unfold classify_triage
  rw [if_pos (by rw [show ((RISK_THRESHOLD_URGENT : ℚ) : ℝ) = 0.8 by
    norm_num [RISK_THRESHOLD_URGENT]]; exact h)]

/-- C2: any raw text containing "dying" drives layer 1 to 0.95, which
dominates the cascade: the scorer returns at least 0.90 (in fact exactly
0.95) and the triage label is "urgent", regardless of the structured record;
in particular for the input "im dying", layer 1 equals 0.95 and the final
risk score is exactly 0.95 with label "urgent". -/
theorem dying_dominance :
    (∀ (raw : Str) (ps : SymptomRecord), hasSub (str "dying") raw = true →
      (0.90 : ℝ) ≤ compute_spectrum_risk_score raw ps ∧
        classify_triage (compute_spectrum_risk_score raw ps) =
          str "urgent") ∧
    layer1_critical_life_threatening (str "im dying") = 0.95 ∧
    (∀ ps : SymptomRecord,
      compute_spectrum_risk_score (str "im dying") ps = 0.95 ∧
        classify_triage (compute_spectrum_risk_score (str "im dying") ps) =
          str "urgent") := by
  have score_eq : ∀ (raw : Str) (ps : SymptomRecord),
      hasSub (str "dying") raw = true →
      compute_spectrum_risk_score raw ps = 0.95 := by
    intro raw ps h
    unfold compute_spectrum_risk_score
    rw [layer1_of_dying h, combine_layers_high_l1 (by norm_num)]
    norm_num
  refine ⟨?_, ?_, ?_⟩
  · intro raw ps h
    rw [score_eq raw ps h]
    exact ⟨by norm_num, classify_triage_eq_urgent (by norm_num)⟩
  · rw [layer1_of_dying (by decide)]
    norm_num
  · intro ps
    rw [score_eq _ ps (by decide)]
    exact ⟨rfl, classify_triage_eq_urgent (by norm_num)⟩

theorem dying_dominance_witness :
    hasSub (str "dying") (str "i am dying here") = true ∧
    (0.90 : ℝ) ≤
      compute_spectrum_risk_score (str "i am dying here") rs_example_plain ∧
    classify_triage
      (compute_spectrum_risk_score (str "i am dying here") rs_example_plain) =
      str "urgent" :=
  ⟨by decide, (dying_dominance.1 _ _ (by decide)).1,
   (dying_dominance.1 _ _ (by decide)).2⟩

theorem ite_max_mono {c c' : Prop} [Decidable c] [Decidable c'] {r r' v : ℚ}
    (hr : r ≤ r') (himp : c → c') :
    (if c then max r v else r) ≤ (if c' then max r' v else r') := by
  split_ifs with h h'
  · exact max_le_max hr le_rfl
  · exact absurd (himp h) h'
  · exact le_trans hr (le_max_left _ _)
  · exact hr

set_option maxHeartbeats 1000000 in
theorem len_chain_mono {r r' : ℚ} {n n' : ℕ} (hr : r ≤ r') (hn : n ≤ n') :
    (if 3 ≤ n then max r (mkRat 90 100)
      else if 2 ≤ n then max r (mkRat 75 100)
      else if 1 ≤ n then max r (mkRat 55 100) else r) ≤
    (if 3 ≤ n' then max r' (mkRat 90 100)
      else if 2 ≤ n' then max r' (mkRat 75 100)
      else if 1 ≤ n' then max r' (mkRat 55 100) else r') := by
  split_ifs <;>
    first
      | (exfalso; omega)
      | exact hr
      | exact le_trans hr (le_max_left _ _)
      | exact max_le (le_trans hr (le_max_left _ _))
          (le_trans (by decide) (le_max_right _ _))

theorem layer4_mono_add (ps : SymptomRecord) (f : Str) :
    layer4_red_flags ps ≤ layer4_red_flags (add_red_flag ps f) := by
  by_cases h : ps.red_flags = []
  · have h0 : layer4_red_flags ps = 0 := by
      unfold layer4_red_flags
      dsimp only
      rw [if_pos (by simp [h])]
    rw [h0]
    exact (layer4_bounds _).1
  · unfold layer4_red_flags add_red_flag
    dsimp only
    have hne1 : ¬ ps.red_flags.isEmpty = true := by simp [h]
    have hne2 : ¬ (f :: ps.red_flags).isEmpty = true := by simp
    rw [if_neg hne1, if_neg hne2]
    refine len_chain_mono (ite_max_mono (ite_max_mono le_rfl ?_) ?_)
      (Nat.le_succ _)
    · intro hx
      rw [List.any_cons, hx, Bool.or_true]
    · intro hx
      rw [List.any_cons, hx, Bool.or_true]

theorem layer2_mono_add (raw : Str) (ps : SymptomRecord) (f : Str) :
    layer2_severe_injuries raw ps ≤
      layer2_severe_injuries raw (add_red_flag ps f) := by
  unfold layer2_severe_injuries add_red_flag
  dsimp only
  by_cases h : raw.isEmpty = true
  · rw [if_pos h, if_pos h]
  · rw [if_neg h, if_neg h]
    refine ite_max_mono (ite_max_mono le_rfl ?_) ?_
    · intro hx
      rw [List.contains_cons, hx, Bool.or_true]
    · intro hx
      rw [List.contains_cons, hx, Bool.or_true]

theorem layer3_add_flag (ps : SymptomRecord) (f : Str) :
    layer3_severity_spectrum (add_red_flag ps f) =
      layer3_severity_spectrum ps := rfl

theorem layer5_add_flag (ps : SymptomRecord) (f : Str) :
    layer5_symptom_combinations (add_red_flag ps f) =
      layer5_symptom_combinations ps := rfl

/-- C1 amended: adding a red flag to the record (holding raw text, severity,
categories, duration and pattern fixed) never decreases any individual
layer's contribution — layers 2 and 4 are monotonically non-decreasing in
red-flag addition and layers 3 and 5 (and layer 1, which reads only the raw
text) are unchanged — but the final combined score of the cascade is NOT
monotone in the red-flag count: an added flag that lifts layer 4 above the
0.4 blend threshold of the severity branch can strictly lower the final
score (see the counterexample). -/
theorem red_flag_layer_monotonicity :
    ∀ (raw : Str) (ps : SymptomRecord) (f : Str),
      layer2_severe_injuries raw ps ≤
        layer2_severe_injuries raw (add_red_flag ps f) ∧
      layer4_red_flags ps ≤ layer4_red_flags (add_red_flag ps f) ∧
      layer3_severity_spectrum (add_red_flag ps f) =
        layer3_severity_spectrum ps ∧
      layer5_symptom_combinations (add_red_flag ps f) =
        layer5_symptom_combinations ps :=
  fun raw ps f =>
    ⟨layer2_mono_add raw ps f, layer4_mono_add ps f,
     layer3_add_flag ps f, layer5_add_flag ps f⟩

theorem combine_layers_l3_branch {l1 l2 l4 l5 : ℚ} {l3 : ℝ}
    (h1 : ¬ mkRat 90 100 ≤ l1) (h2 : ¬ mkRat 80 100 ≤ l2)
    (h3 : (0.70 : ℝ) ≤ l3) :
    combine_layers l1 l2 l3 l4 l5 =
      min (if mkRat 3 10 < l5 then
            max (if mkRat 4 10 < l4 then l3 * 0.65 + (l4 : ℝ) * 0.35 else l3)
              ((l5 : ℝ) * 0.75)
          else (if mkRat 4 10 < l4 then l3 * 0.65 + (l4 : ℝ) * 0.35 else l3))
        0.92 := by
  unfold combine_layers
  dsimp only
  rw [if_neg h1, if_neg h2, if_pos h3]

/-- The record of the C1 counterexample: severity 9, no red flags. -/
def c1_base : SymptomRecord :=
  { symptom_categories := [str "general_discomfort"]
    severity := 9
    duration_days := 3
    pattern := str "constant"
    red_flags := []
    raw_text := none }

theorem red_flag_not_monotone_cx :
    compute_spectrum_risk_score [] (add_red_flag c1_base (str "fracture")) <
      compute_spectrum_risk_score [] c1_base := by
  have hA1 : (0.81 : ℝ) ≤ (0.9 : ℝ) ^ (1.8 : ℝ) := by
    have h2 : (0.9 : ℝ) ^ (2 : ℝ) ≤ (0.9 : ℝ) ^ (1.8 : ℝ) :=
      Real.rpow_le_rpow_of_exponent_ge (by norm_num) (by norm_num)
        (by norm_num)
    have e : (0.9 : ℝ) ^ (2 : ℝ) = 0.81 := by
      rw [show (2 : ℝ) = ((2 : ℕ) : ℝ) by norm_num, Real.rpow_natCast]
      norm_num
    linarith
  have hA2 : (0.9 : ℝ) ^ (1.8 : ℝ) ≤ 0.9 := by
    have h1 : (0.9 : ℝ) ^ (1.8 : ℝ) ≤ (0.9 : ℝ) ^ (1 : ℝ) :=
      Real.rpow_le_rpow_of_exponent_ge (by norm_num) (by norm_num)
        (by norm_num)
    rwa [Real.rpow_one] at h1
  set A := (0.9 : ℝ) ^ (1.8 : ℝ) with hA
  have hL3 : layer3_severity_spectrum c1_base = 0.08 + A * 0.87 := by
    rw [layer3_eq_mid (by norm_num [c1_base]) (by norm_num [c1_base])]
    rw [show ((c1_base.severity : ℚ) : ℝ) / 10.0 = 0.9 by norm_num [c1_base]]
    rw [← hA]
    exact min_eq_left (by nlinarith)
  have e1 : layer1_critical_life_threatening [] = 0 := by decide
  have e2 : layer2_severe_injuries [] c1_base = 0 := by decide
  have e2' : layer2_severe_injuries []
      (add_red_flag c1_base (str "fracture")) = 0 := by decide
  have e4 : layer4_red_flags c1_base = 0 := by decide
  have e4' : layer4_red_flags (add_red_flag c1_base (str "fracture")) =
      mkRat 68 100 := by decide
  have e5 : layer5_symptom_combinations c1_base = mkRat 18 100 := by decide
  have e5' : layer5_symptom_combinations
      (add_red_flag c1_base (str "fracture")) = mkRat 18 100 := by decide
  have c68 : ((mkRat 68 100 : ℚ) : ℝ) = 0.68 := by norm_num
  have hs1 : compute_spectrum_risk_score [] c1_base = 0.08 + A * 0.87 := by
    unfold compute_spectrum_risk_score
    rw [e1, e2, e4, e5, hL3,
      combine_layers_l3_branch (by norm_num) (by norm_num) (by nlinarith)]
    rw [if_neg (by norm_num), if_neg (by norm_num)]
    exact min_eq_left (by nlinarith)
  have hs2 : compute_spectrum_risk_score []
      (add_red_flag c1_base (str "fracture")) =
      (0.08 + A * 0.87) * 0.65 + 0.68 * 0.35 := by
    unfold compute_spectrum_risk_score
    rw [e1, e2', e4', e5', layer3_add_flag, hL3,
      combine_layers_l3_branch (by norm_num) (by norm_num) (by nlinarith)]
    rw [if_neg (by norm_num), if_pos (by norm_num), c68]
    exact min_eq_left (by nlinarith)
  rw [hs1, hs2]
  nlinarith

theorem mock_parse_raw_text (raw : Str) : (mock_parse raw).raw_text = none := by
  unfold mock_parse
  rfl

/-- C3 amended: the record returned by the rule-based parser has NO raw_text
field (modelled as `raw_text = none`); `run_triage` with the raw_text
argument omitted falls back to the record's raw_text entry, defaulting to
the empty string when the entry is absent — so when the caller has stored
the original text in the record, omitting the argument gives the same score
as passing that text, but for a parser-produced record the critical-phrase
and injury layers scan empty text (see the counterexample). -/
theorem run_triage_raw_text_default :
    (∀ raw : Str, (parse_symptom_text raw).raw_text = none) ∧
    (∀ (ps : SymptomRecord) (t : Str), ps.raw_text = some t →
      run_triage_risk_score ps none = compute_spectrum_risk_score t ps) ∧
    (∀ ps : SymptomRecord, ps.raw_text = none →
      run_triage_risk_score ps none = compute_spectrum_risk_score [] ps) := by
  refine ⟨?_, ?_, ?_⟩
  · intro raw
    unfold parse_symptom_text
    dsimp only
    split_ifs
    · rfl
    · simp [mock_parse_raw_text]
    · exact mock_parse_raw_text raw
  · intro ps t ht
    unfold run_triage_risk_score effective_raw_text
    rw [ht]
    rfl
  · intro ps hn
    unfold run_triage_risk_score effective_raw_text
    rw [hn]
    rfl

/-- A caller-augmented record: the original text stored under raw_text. -/
def c3_sample : SymptomRecord :=
  { symptom_categories := [str "general_discomfort"]
    severity := 5
    duration_days := 3
    pattern := str "constant"
    red_flags := []
    raw_text := some (str "hello") }

theorem run_triage_raw_text_default_witness :
    (parse_symptom_text (str "sore throat")).raw_text = none ∧
    run_triage_risk_score c3_sample none =
      compute_spectrum_risk_score (str "hello") c3_sample :=
  ⟨run_triage_raw_text_default.1 _, run_triage_raw_text_default.2.1 _ _ rfl⟩

/-- The input of the C3 counterexample. -/
def c3_input : Str := str "im dying"

/-- The record the rule-based parser produces for "im dying". -/
def c3_rec : SymptomRecord :=
  { symptom_categories := [str "general_discomfort"]
    severity := 10
    duration_days := 3
    pattern := str "constant"
    red_flags := [str "critical_severity"]
    raw_text := none }

theorem run_triage_raw_text_cx :
    (parse_symptom_text c3_input).raw_text = none ∧
    run_triage_risk_score (parse_symptom_text c3_input) none ≠
      run_triage_risk_score (parse_symptom_text c3_input) (some c3_input) := by
  have hps : parse_symptom_text c3_input = c3_rec := by decide
  have hl3 : layer3_severity_spectrum c3_rec = 0.95 :=
    layer3_eq_high (by norm_num [c3_rec])
  have e1 : layer1_critical_life_threatening [] = 0 := by decide
  have e2 : layer2_severe_injuries [] c3_rec = 0 := by decide
  have e4 : layer4_red_flags c3_rec = mkRat 85 100 := by decide
  have e5 : layer5_symptom_combinations c3_rec = mkRat 18 100 := by decide
  have c85 : ((mkRat 85 100 : ℚ) : ℝ) = 0.85 := by norm_num
  have hscore_none : compute_spectrum_risk_score [] c3_rec =
      0.95 * 0.65 + 0.85 * 0.35 := by
    unfold compute_spectrum_risk_score
    rw [e1, e2, e4, e5, hl3,
      combine_layers_l3_branch (by norm_num) (by norm_num) (by norm_num)]
    rw [if_neg (by norm_num), if_pos (by norm_num), c85]
    exact min_eq_left (by norm_num)
  have hl1 : layer1_critical_life_threatening c3_input = mkRat 95 100 :=
    layer1_of_dying (by decide)
  have hscore_some : compute_spectrum_risk_score c3_input c3_rec = 0.95 := by
    unfold compute_spectrum_risk_score
    rw [hl1, combine_layers_high_l1 (by norm_num)]
    norm_num
  have hnone : run_triage_risk_score c3_rec none =
      compute_spectrum_risk_score [] c3_rec := by
    unfold run_triage_risk_score effective_raw_text
    rfl
  have hsome : run_triage_risk_score c3_rec (some c3_input) =
      compute_spectrum_risk_score c3_input c3_rec := by
    unfold run_triage_risk_score effective_raw_text
    dsimp only
    rw [if_neg (by decide : ¬ List.isEmpty c3_input = true)]
  refine ⟨by rw [hps]; rfl, ?_⟩
  rw [hps, hnone, hsome, hscore_none, hscore_some]
  norm_num

theorem le_ite_max {c : Prop} [Decidable c] {x r v : ℚ} (hr : x ≤ r) :
    x ≤ if c then max r v else r :=
  le_ite (le_trans hr (le_max_left _ _)) hr

theorem severe_words_props :
    ∀ w ∈ severe_words, w ≠ [] ∧ w.map Char.toLower = w ∧
      ∀ c ∈ w, wsB c = false := by decide

theorem severity_overrides_ge9 {t : Str} (s : ℚ)
    (h : containsAny t dying_phrases = true ∨
      containsAny t severe_words = true) :
    9 ≤ severity_overrides t s := by
  unfold severity_overrides
  rcases h with h | h
  · rw [if_pos h]
    norm_num
  · by_cases hd : containsAny t dying_phrases = true
    · rw [if_pos hd]
      norm_num
    · rw [if_neg hd, if_pos h]
      exact le_max_right _ _

set_option maxHeartbeats 1000000 in
theorem severity_bleeding_floor_ge {t : Str} {s : ℚ} (hs : 9 ≤ s) :
    9 ≤ severity_bleeding_floor t s := by
  unfold severity_bleeding_floor
  split_ifs
  · exact le_trans hs (le_max_left _ _)
  · exact hs
  · exact hs

theorem calc_severity_ge9 (t : Str) (inj : List Str) (isv : ℚ)
    (h : containsAny t dying_phrases = true ∨
      containsAny t severe_words = true) :
    9 ≤ calculate_severity_spectrum t inj isv := by
  unfold calculate_severity_spectrum
  dsimp only
  have h2 := severity_bleeding_floor_ge (t := t)
    (severity_overrides_ge9 (t := t)
      (if 0 < isv then max 5 isv else (5 : ℚ)) h)
  exact le_min (le_ite_max (le_ite_max (le_ite_max h2))) (by norm_num)

theorem mock_parse_severity_ge9 {raw : Str}
    (h : containsAny (normText raw) dying_phrases = true ∨
      containsAny (normText raw) severe_words = true)
    (hex : ¬ (hasSub (str "significant") (normText raw) = true ∧
      (hasSub (str "bleeding") (normText raw) = true ∨
        hasSub (str "blood") (normText raw) = true) ∧
      stop_qualifier (normText raw) = true)) :
    9 ≤ (mock_parse raw).severity := by
  have hc := calc_severity_ge9 (normText raw)
    (detect_injuries (normText raw)).1 (detect_injuries (normText raw)).2 h
  unfold mock_parse
  dsimp only
  split_ifs with hA hB hC
  · exfalso
    simp only [Bool.and_eq_true, Bool.or_eq_true] at hA
    exact hex ⟨hA.1, hA.2, hB⟩
  · exfalso
    have e : (mkRat 65 10 : ℚ) = 6.5 := by norm_num
    rw [e] at hC
    linarith
  · exact hc
  · exact hc

/-- C4 amended: for every input text containing one of the words "severe",
"extreme", "unbearable", "critical" or "emergency", the rule-based parser
returns severity ≥ 9.0 — UNLESS the normalised text also contains
"significant" together with a bleeding keyword ("bleeding"/"blood") and a
stopping qualifier ("won't stop"/"wont stop"/"not stopping"), in which case
a post-processing override assigns severity 6.8 outright (see the
counterexample).  That post-override and the in-chain "significant"
override assign values directly instead of only raising, so the claim's
"overrides never lower severity except the mild cue" fails on the code. -/
theorem parse_severe_word_severity :
    ∀ raw : Str,
      (hasSub (str "severe") raw || hasSub (str "extreme") raw ||
        hasSub (str "unbearable") raw || hasSub (str "critical") raw ||
        hasSub (str "emergency") raw) = true →
      ¬ (hasSub (str "significant") (normText raw) = true ∧
        (hasSub (str "bleeding") (normText raw) = true ∨
          hasSub (str "blood") (normText raw) = true) ∧
        stop_qualifier (normText raw) = true) →
      9 ≤ (parse_symptom_text raw).severity := by
  intro raw h hex
  have hw : ∃ w ∈ severe_words, hasSub w raw = true := by
    simp only [Bool.or_eq_true] at h
    rcases h with ((((h | h) | h) | h) | h)
    exacts [⟨str "severe", by decide, h⟩, ⟨str "extreme", by decide, h⟩,
      ⟨str "unbearable", by decide, h⟩, ⟨str "critical", by decide, h⟩,
      ⟨str "emergency", by decide, h⟩]
  obtain ⟨w, hwmem, hwsub⟩ := hw
  have hprops := severe_words_props w hwmem
  have hnorm : hasSub w (normText raw) = true :=
    hasSub_normText hprops.1 hprops.2.1 hprops.2.2 hwsub
  have hctn : containsAny (normText raw) severe_words = true := by
    simp only [containsAny, List.any_eq_true]
    exact ⟨w, hwmem, hnorm⟩
  have hmock : 9 ≤ (mock_parse raw).severity :=
    mock_parse_severity_ge9 (Or.inr hctn) hex
  have hraw_ne : raw ≠ [] := hasSub_ne_nil hprops.1 hwsub
  have hstrip : hasSub w (pyStrip raw) = true :=
    hasSub_pyStrip hprops.1 hprops.2.2 hwsub
  have hstrip_ne : pyStrip raw ≠ [] := hasSub_ne_nil hprops.1 hstrip
  unfold parse_symptom_text
  dsimp only
  rw [if_neg (by
    simp [Bool.or_eq_true, List.isEmpty_iff, hraw_ne, hstrip_ne])]
  split_ifs with h0
  · exfalso
    rw [h0] at hmock
    norm_num at hmock
  · exact hmock

theorem parse_severe_word_severity_witness :
    (hasSub (str "severe") (str "severe pain") ||
      hasSub (str "extreme") (str "severe pain") ||
      hasSub (str "unbearable") (str "severe pain") ||
      hasSub (str "critical") (str "severe pain") ||
      hasSub (str "emergency") (str "severe pain")) = true ∧
    9 ≤ (parse_symptom_text (str "severe pain")).severity :=
  ⟨by decide, parse_severe_word_severity _ (by decide) (by decide)⟩

/-- The input of the C4 counterexample. -/
def c4_input : Str := str "severe significant bleeding wont stop"

theorem severe_word_severity_cx :
    hasSub (str "severe") c4_input = true ∧
    (parse_symptom_text c4_input).severity = mkRat 68 10 ∧
    (parse_symptom_text c4_input).severity < 9 :=
  ⟨by decide, by decide, by decide⟩

end Clinix
